import Mathlib

/-!
Shallow embedding of the points-escrow ledger and moderation workflow of the
clothing-swap marketplace (source: src/lib/api.ts, src/lib/types.ts, and the
item-detail redemption handler in src/unnamed/part_000).

The backing document store is modelled as an explicit state (Db) holding the
four collections (users, items, swapOrders, pointsTransactions).  Firestore
runTransaction is modelled by its contract: the transaction callback reads the
current state, and either all buffered writes commit (Except.ok with the new
state) or a thrown error aborts every write (Except.error, state untouched).
Timestamps (createdAt, lastActive) are dropped: no claim mentions them.
Generated document ids are modelled by a counter (Db.nextId); only swap-order
ids are ever referenced, so only they are tracked.
-/

namespace Rewear

/-- Item.status from src/lib/types.ts. -/
inductive ItemStatus
  | statusPending
  | approved
  | rejected
  | available
  | inTransit
  | completed
deriving DecidableEq, Repr

/-- SwapOrder.status from src/lib/types.ts. -/
inductive OrderStatus
  | orderPending
  | confirmed
  | shipped
  | delivered
  | disputed
  | orderCompleted
deriving DecidableEq, Repr

/-- PointsTransaction.type from src/lib/types.ts. -/
inductive TxnType
  | earned
  | spent
  | expired
  | refunded
deriving DecidableEq, Repr

/-- Account record: the fields of User (src/lib/types.ts) that the core
workflows read or write, minus timestamps. -/
structure UserRec where
  points : Int
  isAdmin : Bool
  isBanned : Bool
deriving DecidableEq, Repr

/-- Listing record: the fields of Item (src/lib/types.ts) that the core
workflows read or write. -/
structure ItemRec where
  ownerId : String
  pointValue : Option Int
  status : ItemStatus
  moderationNotes : Option String
deriving DecidableEq, Repr

/-- Stored swap-order document, as written by createSwapOrder: the caller
supplied fields plus status pending.  pointsAmount is optional because the
argument is Partial and is stored as given. -/
structure SwapOrderRec where
  id : Nat
  itemId : String
  buyerId : String
  sellerId : Option String
  pointsAmount : Option Int
  status : OrderStatus
deriving DecidableEq, Repr

/-- Stored points-transaction document (PointsTransaction in
src/lib/types.ts). -/
structure TxnRec where
  userId : String
  amount : Int
  type : TxnType
  reason : String
  relatedOrderId : Option Nat
deriving DecidableEq, Repr

/-- The four Firestore collections plus the fresh-id counter. -/
structure Db where
  users : List (String × UserRec)
  items : List (String × ItemRec)
  swapOrders : List SwapOrderRec
  pointsTransactions : List TxnRec
  nextId : Nat
deriving DecidableEq, Repr

/-- Document lookup by id (transaction.get / getDoc on a keyed collection). -/
def getEntry (k : String) : List (String × α) → Option α
  | [] => none
  | (k', v) :: rest => if k = k' then some v else getEntry k rest

/-- Document update by id (transaction.update on an existing document). -/
def setEntry (k : String) (v : α) : List (String × α) → List (String × α)
  | [] => []
  | (k', v') :: rest =>
      if k = k' then (k', v) :: setEntry k v rest else (k', v') :: setEntry k v rest

/-- Typed versions of the errors thrown inside the core workflows.  The first
five are the messages thrown in src/lib/api.ts; the last two are the
caller-side rejections in the redemption handler (src/unnamed/part_000). -/
inductive ApiErr
  | buyerNotFound          -- "Buyer not found"
  | insufficientPoints     -- "Insufficient points"
  | itemNotFound           -- "Item not found"
  | itemNotAvailable       -- "Item not available"
  | userNotFound           -- "User not found"
  | noPointValue           -- "This item does not have a point value set"
  | insufficientPointsClient -- "Insufficient points for this item"
deriving DecidableEq, Repr

/-- Argument record for createSwapOrder (Partial SwapOrder in the source;
itemId and buyerId are dereferenced with a non-null assertion there, so they
are required here). -/
structure OrderData where
  itemId : String
  buyerId : String
  sellerId : Option String
  pointsAmount : Option Int
deriving DecidableEq, Repr

/-- createUser from src/lib/api.ts lines 60 to 85: inside a transaction, if no
user document with this id exists, create it with points 100 (welcome bonus),
isAdmin false, isBanned false; in either case return the id.  No
points-transaction document is written. -/
def createUser (uid : String) (s : Db) : Db × String :=
  match getEntry uid s.users with
  | some _ => (s, uid)
  | none =>
      ({ s with users := (uid, { points := 100, isAdmin := false, isBanned := false }) :: s.users },
       uid)

/-- createSwapOrder from src/lib/api.ts lines 214 to 280, the body of the
runTransaction callback.  Check order is exactly the source order: buyer
exists, buyer.points < pointsNeeded, item exists, item.status is approved;
then write the order (status pending), debit the buyer, append the spent
transaction, and set the item to in-transit. -/
def createSwapOrder (od : OrderData) (s : Db) : Except ApiErr (Db × Nat) :=
  match getEntry od.buyerId s.users with
  | none => .error .buyerNotFound
  | some buyer =>
      let pointsNeeded : Int := od.pointsAmount.getD 0
      if buyer.points < pointsNeeded then .error .insufficientPoints
      else
        match getEntry od.itemId s.items with
        | none => .error .itemNotFound
        | some item =>
            if item.status ≠ ItemStatus.approved then .error .itemNotAvailable
            else
              let orderId := s.nextId
              .ok ({ s with
                      users := setEntry od.buyerId
                        { buyer with points := buyer.points - pointsNeeded } s.users,
                      items := setEntry od.itemId
                        { item with status := ItemStatus.inTransit } s.items,
                      swapOrders := s.swapOrders ++
                        [{ id := orderId, itemId := od.itemId, buyerId := od.buyerId,
                           sellerId := od.sellerId, pointsAmount := od.pointsAmount,
                           status := OrderStatus.orderPending }],
                      pointsTransactions := s.pointsTransactions ++
                        [{ userId := od.buyerId, amount := -pointsNeeded, type := TxnType.spent,
                           reason := "Item purchase (escrowed)",
                           relatedOrderId := some orderId }],
                      nextId := s.nextId + 1 },
                   orderId)

/-- awardPoints from src/lib/api.ts lines 336 to 365: inside a transaction,
the user must exist; add amount to points and append an earned transaction
with the given reason. -/
def awardPoints (userId : String) (amount : Int) (reason : String) (s : Db) :
    Except ApiErr Db :=
  match getEntry userId s.users with
  | none => .error .userNotFound
  | some user =>
      .ok { s with
              users := setEntry userId { user with points := user.points + amount } s.users,
              pointsTransactions := s.pointsTransactions ++
                [{ userId := userId, amount := amount, type := TxnType.earned,
                   reason := reason, relatedOrderId := none }] }

/-- moderateItem from src/lib/api.ts lines 387 to 431: inside a transaction,
the item must exist; set status to approved or rejected and store the notes
(empty string when absent); if approved and the owner document exists, add 50
to the owner points and append the +50 earned transaction. -/
def moderateItem (itemId : String) (approved : Bool) (notes : Option String) (s : Db) :
    Except ApiErr Db :=
  match getEntry itemId s.items with
  | none => .error .itemNotFound
  | some item =>
      let item1 : ItemRec :=
        { item with
            status := if approved then ItemStatus.approved else ItemStatus.rejected,
            moderationNotes := some (notes.getD "") }
      let s1 : Db := { s with items := setEntry itemId item1 s.items }
      if approved then
        match getEntry item.ownerId s.users with
        | none => .ok s1
        | some owner =>
            let owner1 : UserRec := { owner with points := owner.points + 50 }
            let txn : TxnRec :=
              { userId := item.ownerId, amount := 50, type := TxnType.earned,
                reason := "Item listing approved", relatedOrderId := none }
            .ok { s1 with
                    users := setEntry item.ownerId owner1 s1.users,
                    pointsTransactions := s1.pointsTransactions ++ [txn] }
      else .ok s1

/-- The redemption request as issued by the item-detail page handler
(handleSwapRequest in src/unnamed/part_000): reject when the item has no
point value (JS falsiness: absent or zero), reject when the cached user
points are below the point value, otherwise call createSwapOrder with
pointsAmount set to the item point value and sellerId set to the item owner.
The handler works from the item and user it loaded; here they are read from
the current state (the no-interleaving case). -/
def requestRedemption (itemId buyerId : String) (s : Db) : Except ApiErr (Db × Nat) :=
  match getEntry itemId s.items with
  | none => .error .itemNotFound
  | some item =>
      match getEntry buyerId s.users with
      | none => .error .buyerNotFound
      | some buyer =>
          match item.pointValue with
          | none => .error .noPointValue
          | some pv =>
              if pv = 0 then .error .noPointValue
              else if buyer.points < pv then .error .insufficientPointsClient
              else createSwapOrder
                { itemId := itemId, buyerId := buyerId,
                  sellerId := some item.ownerId, pointsAmount := some pv } s

/-- Run createSwapOrder with the store abort semantics made explicit: on an
error the state is the unchanged input state. -/
def createSwapOrderRun (od : OrderData) (s : Db) : Db × Option Nat × Option ApiErr :=
  match createSwapOrder od s with
  | .ok (s', oid) => (s', some oid, none)
  | .error e => (s, none, some e)

/-- Run requestRedemption with the store abort semantics made explicit. -/
def requestRedemptionRun (itemId buyerId : String) (s : Db) : Db × Option Nat × Option ApiErr :=
  match requestRedemption itemId buyerId s with
  | .ok (s', oid) => (s', some oid, none)
  | .error e => (s, none, some e)

/-- One operation of the core api surface, for reasoning about arbitrary
operation sequences. -/
inductive Op
  | newUser (uid : String)
  | redeem (itemId buyerId : String)
  | swap (od : OrderData)
  | moderate (itemId : String) (approved : Bool) (notes : Option String)
  | award (userId : String) (amount : Int) (reason : String)
deriving Repr

/-- Apply one operation; a failed (aborted) transaction leaves the state
unchanged. -/
def step (s : Db) : Op → Db
  | .newUser uid => (createUser uid s).1
  | .redeem itemId buyerId => (requestRedemptionRun itemId buyerId s).1
  | .swap od => (createSwapOrderRun od s).1
  | .moderate itemId approved notes =>
      match moderateItem itemId approved notes s with
      | .ok s' => s'
      | .error _ => s
  | .award userId amount reason =>
      match awardPoints userId amount reason s with
      | .ok s' => s'
      | .error _ => s

/-- Apply a sequence of operations in order. -/
def runOps (s : Db) (ops : List Op) : Db :=
  ops.foldl step s

/-- The empty store. -/
def emptyDb : Db :=
  { users := [], items := [], swapOrders := [], pointsTransactions := [], nextId := 0 }

/-- Sum of the amounts of the points transactions recorded for one user. -/
def txnSum (uid : String) : List TxnRec → Int
  | [] => 0
  | t :: ts => (if t.userId = uid then t.amount else 0) + txnSum uid ts

/-- Ledger consistency as the code actually maintains it: every existing
account balance is 100 (the welcome bonus, written without a transaction
record) plus the sum of its transaction amounts, and no transaction references
an absent account. -/
def ledgerInv (s : Db) : Prop :=
  (∀ uid u, getEntry uid s.users = some u →
      u.points = 100 + txnSum uid s.pointsTransactions) ∧
  (∀ uid, getEntry uid s.users = (none : Option UserRec) →
      txnSum uid s.pointsTransactions = 0)

/-- Every existing account has a non-negative balance. -/
def nonNegInv (s : Db) : Prop :=
  ∀ uid u, getEntry uid s.users = some u → 0 ≤ u.points

/-- The positivity restriction of the claims on credit amounts: awardPoints
is only invoked with a positive amount (the other operations carry their own
fixed or checked amounts). -/
def opOk : Op → Prop
  | .award _ amount _ => 0 < amount
  | _ => True

/-! Helper lemmas about the store primitives. -/

theorem getEntry_setEntry_self (k : String) (v : α) (m : List (String × α)) :
    getEntry k (setEntry k v m) = (getEntry k m).map (fun _ => v) := by
  induction m with
  | nil => simp [getEntry, setEntry]
  | cons p rest ih =>
      obtain ⟨k', v'⟩ := p
      by_cases h : k = k'
      · subst h; simp [getEntry, setEntry]
      · simp [getEntry, setEntry, h, ih]

theorem getEntry_setEntry_ne (h : k₂ ≠ k) (v : α) (m : List (String × α)) :
    getEntry k₂ (setEntry k v m) = getEntry k₂ m := by
  induction m with
  | nil => simp [setEntry]
  | cons p rest ih =>
      obtain ⟨k', v'⟩ := p
      by_cases hk : k = k'
      · subst hk
        simp [getEntry, setEntry, h, ih]
      · by_cases hk2 : k₂ = k'
        · subst hk2; simp [getEntry, setEntry, hk]
        · simp [getEntry, setEntry, hk, hk2, ih]

theorem txnSum_append (uid : String) (ts ts' : List TxnRec) :
    txnSum uid (ts ++ ts') = txnSum uid ts + txnSum uid ts' := by
  induction ts with
  | nil => simp [txnSum]
  | cons t rest ih => simp [txnSum, ih]; ring

theorem txnSum_single (uid : String) (t : TxnRec) :
    txnSum uid [t] = if t.userId = uid then t.amount else 0 := by
  simp [txnSum]

/-- The state committed by a successful createSwapOrder, as an explicit
record. -/
def swapCommit (od : OrderData) (s : Db) (buyer : UserRec) (item : ItemRec) : Db :=
  { s with
      users := setEntry od.buyerId
        { buyer with points := buyer.points - od.pointsAmount.getD 0 } s.users,
      items := setEntry od.itemId { item with status := ItemStatus.inTransit } s.items,
      swapOrders := s.swapOrders ++
        [{ id := s.nextId, itemId := od.itemId, buyerId := od.buyerId,
           sellerId := od.sellerId, pointsAmount := od.pointsAmount,
           status := OrderStatus.orderPending }],
      pointsTransactions := s.pointsTransactions ++
        [{ userId := od.buyerId, amount := -(od.pointsAmount.getD 0), type := TxnType.spent,
           reason := "Item purchase (escrowed)", relatedOrderId := some s.nextId }],
      nextId := s.nextId + 1 }

theorem createSwapOrder_ok_iff {od : OrderData} {s s' : Db} {oid : Nat} :
    createSwapOrder od s = .ok (s', oid) ↔
      ∃ buyer item,
        getEntry od.buyerId s.users = some buyer ∧
        getEntry od.itemId s.items = some item ∧
        od.pointsAmount.getD 0 ≤ buyer.points ∧
        item.status = ItemStatus.approved ∧
        oid = s.nextId ∧
        s' = swapCommit od s buyer item := by
  constructor
  · intro h
    unfold createSwapOrder at h
    cases hb : getEntry od.buyerId s.users with
    | none => rw [hb] at h; exact absurd h (by simp)
    | some buyer =>
        rw [hb] at h
        simp only at h
        by_cases hp : buyer.points < od.pointsAmount.getD 0
        · rw [if_pos hp] at h; exact absurd h (by simp)
        · rw [if_neg hp] at h
          cases hi : getEntry od.itemId s.items with
          | none => rw [hi] at h; exact absurd h (by simp)
          | some item =>
              rw [hi] at h
              simp only at h
              by_cases hst : item.status = ItemStatus.approved
              · rw [if_neg (by simp [hst])] at h
                refine ⟨buyer, item, rfl, rfl, le_of_not_lt hp, hst, ?_, ?_⟩
                · exact (by injection h with h'; injection h' with h1 h2; exact h2.symm)
                · injection h with h'
                  injection h' with h1 h2
                  exact h1.symm
              · rw [if_pos (by simp [hst])] at h; exact absurd h (by simp)
  · rintro ⟨buyer, item, hb, hi, hp, hst, rfl, rfl⟩
    unfold createSwapOrder
    rw [hb]
    simp only
    rw [if_neg (not_lt.mpr hp), hi]
    simp only
    rw [if_neg (by simp [hst])]
    rfl

theorem createSwapOrder_buyerMissing {od : OrderData} {s : Db}
    (h : getEntry od.buyerId s.users = none) :
    createSwapOrder od s = .error ApiErr.buyerNotFound := by
  simp [createSwapOrder, h]

theorem createSwapOrder_insufficient {od : OrderData} {s : Db} {buyer : UserRec}
    (hb : getEntry od.buyerId s.users = some buyer)
    (hlt : buyer.points < od.pointsAmount.getD 0) :
    createSwapOrder od s = .error ApiErr.insufficientPoints := by
  simp [createSwapOrder, hb, hlt]

theorem createSwapOrder_itemMissing {od : OrderData} {s : Db} {buyer : UserRec}
    (hb : getEntry od.buyerId s.users = some buyer)
    (hge : od.pointsAmount.getD 0 ≤ buyer.points)
    (hi : getEntry od.itemId s.items = none) :
    createSwapOrder od s = .error ApiErr.itemNotFound := by
  simp [createSwapOrder, hb, hi, not_lt.mpr hge]

theorem createSwapOrder_unavailable {od : OrderData} {s : Db} {buyer : UserRec} {item : ItemRec}
    (hb : getEntry od.buyerId s.users = some buyer)
    (hge : od.pointsAmount.getD 0 ≤ buyer.points)
    (hi : getEntry od.itemId s.items = some item)
    (hst : item.status ≠ ItemStatus.approved) :
    createSwapOrder od s = .error ApiErr.itemNotAvailable := by
  simp [createSwapOrder, hb, hi, not_lt.mpr hge, hst]

theorem createSwapOrderRun_of_error {od : OrderData} {s : Db} {e : ApiErr}
    (h : createSwapOrder od s = .error e) :
    createSwapOrderRun od s = (s, none, some e) := by
  simp [createSwapOrderRun, h]

theorem awardPoints_missing {userId reason : String} {amount : Int} {s : Db}
    (h : getEntry userId s.users = none) :
    awardPoints userId amount reason s = .error ApiErr.userNotFound := by
  simp [awardPoints, h]

theorem awardPoints_eq {userId reason : String} {amount : Int} {s : Db} {user : UserRec}
    (h : getEntry userId s.users = some user) :
    awardPoints userId amount reason s = .ok
      { s with
          users := setEntry userId { user with points := user.points + amount } s.users,
          pointsTransactions := s.pointsTransactions ++
            [{ userId := userId, amount := amount, type := TxnType.earned,
               reason := reason, relatedOrderId := none }] } := by
  simp [awardPoints, h]

theorem moderateItem_missing {itemId : String} {notes : Option String} {s : Db} {b : Bool}
    (h : getEntry itemId s.items = none) :
    moderateItem itemId b notes s = .error ApiErr.itemNotFound := by
  simp [moderateItem, h]

theorem moderateItem_rejected_eq {itemId : String} {notes : Option String} {s : Db}
    {item : ItemRec} (hi : getEntry itemId s.items = some item) :
    moderateItem itemId false notes s = .ok
      ({ s with
          items := setEntry itemId
            ({ item with status := ItemStatus.rejected,
                         moderationNotes := some (notes.getD "") }) s.items }) := by
  simp [moderateItem, hi]

theorem moderateItem_approved_noOwner_eq {itemId : String} {notes : Option String} {s : Db}
    {item : ItemRec} (hi : getEntry itemId s.items = some item)
    (ho : getEntry item.ownerId s.users = (none : Option UserRec)) :
    moderateItem itemId true notes s = .ok
      ({ s with
          items := setEntry itemId
            ({ item with status := ItemStatus.approved,
                         moderationNotes := some (notes.getD "") }) s.items }) := by
  simp [moderateItem, hi, ho]

theorem moderateItem_approved_eq {itemId : String} {notes : Option String} {s : Db}
    {item : ItemRec} {owner : UserRec} (hi : getEntry itemId s.items = some item)
    (ho : getEntry item.ownerId s.users = some owner) :
    moderateItem itemId true notes s = .ok
      ({ s with
          users := setEntry item.ownerId { owner with points := owner.points + 50 } s.users,
          items := setEntry itemId
            ({ item with status := ItemStatus.approved,
                         moderationNotes := some (notes.getD "") }) s.items,
          pointsTransactions := s.pointsTransactions ++
            [{ userId := item.ownerId, amount := 50, type := TxnType.earned,
               reason := "Item listing approved", relatedOrderId := none }] }) := by
  simp [moderateItem, hi, ho]

theorem requestRedemption_itemMissing {itemId buyerId : String} {s : Db}
    (hi : getEntry itemId s.items = none) :
    requestRedemption itemId buyerId s = .error ApiErr.itemNotFound := by
  simp [requestRedemption, hi]

theorem requestRedemption_noPointValue {itemId buyerId : String} {s : Db}
    {item : ItemRec} {buyer : UserRec}
    (hi : getEntry itemId s.items = some item)
    (hb : getEntry buyerId s.users = some buyer)
    (hpv : item.pointValue = none) :
    requestRedemption itemId buyerId s = .error ApiErr.noPointValue := by
  simp [requestRedemption, hi, hb, hpv]

theorem requestRedemption_eq_swap {itemId buyerId : String} {s : Db}
    {item : ItemRec} {buyer : UserRec} {pv : Int}
    (hi : getEntry itemId s.items = some item)
    (hb : getEntry buyerId s.users = some buyer)
    (hpv : item.pointValue = some pv) (hpv0 : pv ≠ 0)
    (hbal : pv ≤ buyer.points) :
    requestRedemption itemId buyerId s =
      createSwapOrder
        { itemId := itemId, buyerId := buyerId,
          sellerId := some item.ownerId, pointsAmount := some pv } s := by
  simp [requestRedemption, hi, hb, hpv, hpv0, not_lt.mpr hbal]

theorem requestRedemption_ok_inv {itemId buyerId : String} {s : Db} {r : Db × Nat}
    (h : requestRedemption itemId buyerId s = .ok r) :
    ∃ od, createSwapOrder od s = .ok r := by
  unfold requestRedemption at h
  cases hi : getEntry itemId s.items with
  | none => rw [hi] at h; exact absurd h (by simp)
  | some item =>
      rw [hi] at h
      cases hb : getEntry buyerId s.users with
      | none => rw [hb] at h; exact absurd h (by simp)
      | some buyer =>
          rw [hb] at h
          simp only at h
          cases hpv : item.pointValue with
          | none => rw [hpv] at h; exact absurd h (by simp)
          | some pv =>
              rw [hpv] at h
              simp only at h
              by_cases h0 : pv = 0
              · rw [if_pos h0] at h; exact absurd h (by simp)
              · rw [if_neg h0] at h
                by_cases hlt : buyer.points < pv
                · rw [if_pos hlt] at h; exact absurd h (by simp)
                · rw [if_neg hlt] at h
                  exact ⟨_, h⟩

/-! Preservation of the ledger invariant (balance = 100 + transaction sum)
and of balance non-negativity by every core operation. -/

theorem ledgerInv_update {s s' : Db} {k : String} {u u' : UserRec} {t : TxnRec}
    (hu : getEntry k s.users = some u)
    (hpts : u'.points = u.points + t.amount)
    (husers : s'.users = setEntry k u' s.users)
    (htxns : s'.pointsTransactions = s.pointsTransactions ++ [t])
    (htu : t.userId = k)
    (hinv : ledgerInv s) : ledgerInv s' := by
  constructor
  · intro uid v hv
    rw [husers] at hv
    rw [htxns, txnSum_append, txnSum_single]
    by_cases hk : uid = k
    · subst hk
      rw [getEntry_setEntry_self, hu] at hv
      have hv2 : (some u' : Option UserRec) = some v := hv
      cases hv2
      rw [if_pos htu, hpts, hinv.1 uid u hu]
      ring
    · rw [getEntry_setEntry_ne hk] at hv
      rw [if_neg (show t.userId ≠ uid from fun h => hk ((htu.symm.trans h).symm)),
          hinv.1 uid v hv]
      ring
  · intro uid hv
    rw [husers] at hv
    rw [htxns, txnSum_append, txnSum_single]
    by_cases hk : uid = k
    · subst hk
      rw [getEntry_setEntry_self, hu] at hv
      simp at hv
    · rw [getEntry_setEntry_ne hk] at hv
      rw [if_neg (show t.userId ≠ uid from fun h => hk ((htu.symm.trans h).symm)),
          hinv.2 uid hv]
      ring

theorem ledgerInv_only_users_txns {s s' : Db}
    (husers : s'.users = s.users)
    (htxns : s'.pointsTransactions = s.pointsTransactions)
    (hinv : ledgerInv s) : ledgerInv s' := by
  constructor
  · intro uid u hu
    rw [husers] at hu
    rw [htxns]
    exact hinv.1 uid u hu
  · intro uid hu
    rw [husers] at hu
    rw [htxns]
    exact hinv.2 uid hu

theorem ledgerInv_createUser {s : Db} {uid : String}
    (hinv : ledgerInv s) : ledgerInv (createUser uid s).1 := by
  unfold createUser
  cases hu : getEntry uid s.users with
  | some u => exact hinv
  | none =>
      constructor
      · intro uid' u' hu'
        simp only [getEntry] at hu'
        by_cases hk : uid' = uid
        · rw [if_pos hk] at hu'
          cases hu'
          rw [hk, hinv.2 uid hu]
          simp
        · rw [if_neg hk] at hu'
          exact hinv.1 uid' u' hu'
      · intro uid' hu'
        simp only [getEntry] at hu'
        by_cases hk : uid' = uid
        · rw [if_pos hk] at hu'; exact absurd hu' (by simp)
        · rw [if_neg hk] at hu'
          exact hinv.2 uid' hu'

theorem ledgerInv_swapCommit {od : OrderData} {s : Db} {buyer : UserRec} {item : ItemRec}
    (hb : getEntry od.buyerId s.users = some buyer)
    (hinv : ledgerInv s) : ledgerInv (swapCommit od s buyer item) := by
  refine ledgerInv_update hb ?_ rfl rfl rfl hinv
  simp [sub_eq_add_neg]

theorem ledgerInv_moderate {s : Db} {itemId : String} {approved : Bool} {notes : Option String}
    (hinv : ledgerInv s) :
    ledgerInv (match moderateItem itemId approved notes s with
               | .ok s' => s'
               | .error _ => s) := by
  cases hi : getEntry itemId s.items with
  | none => rw [moderateItem_missing hi]; exact hinv
  | some item =>
      cases approved with
      | false =>
          rw [moderateItem_rejected_eq hi]
          exact ledgerInv_only_users_txns rfl rfl hinv
      | true =>
          cases ho : getEntry item.ownerId s.users with
          | none =>
              rw [moderateItem_approved_noOwner_eq hi ho]
              exact ledgerInv_only_users_txns rfl rfl hinv
          | some owner =>
              rw [moderateItem_approved_eq hi ho]
              exact ledgerInv_update ho rfl rfl rfl rfl hinv

theorem ledgerInv_award {s : Db} {userId reason : String} {amount : Int}
    (hinv : ledgerInv s) :
    ledgerInv (match awardPoints userId amount reason s with
               | .ok s' => s'
               | .error _ => s) := by
  cases hu : getEntry userId s.users with
  | none => rw [awardPoints_missing hu]; exact hinv
  | some user =>
      rw [awardPoints_eq hu]
      exact ledgerInv_update hu rfl rfl rfl rfl hinv

theorem ledgerInv_step {s : Db} (op : Op) (hinv : ledgerInv s) : ledgerInv (step s op) := by
  cases op with
  | newUser uid => exact ledgerInv_createUser hinv
  | redeem itemId buyerId =>
      show ledgerInv (requestRedemptionRun itemId buyerId s).1
      unfold requestRedemptionRun
      cases hr : requestRedemption itemId buyerId s with
      | error e => exact hinv
      | ok r =>
          obtain ⟨s1, oid⟩ := r
          obtain ⟨od, hok⟩ := requestRedemption_ok_inv hr
          obtain ⟨buyer, item, hb, hi, hp, hst, hoid, hs⟩ := createSwapOrder_ok_iff.mp hok
          have hres : ledgerInv (swapCommit od s buyer item) := ledgerInv_swapCommit hb hinv
          rw [← hs] at hres
          exact hres
  | swap od =>
      show ledgerInv (createSwapOrderRun od s).1
      unfold createSwapOrderRun
      cases hr : createSwapOrder od s with
      | error e => exact hinv
      | ok r =>
          obtain ⟨s1, oid⟩ := r
          obtain ⟨buyer, item, hb, hi, hp, hst, hoid, hs⟩ := createSwapOrder_ok_iff.mp hr
          have hres : ledgerInv (swapCommit od s buyer item) := ledgerInv_swapCommit hb hinv
          rw [← hs] at hres
          exact hres
  | moderate itemId approved notes => exact ledgerInv_moderate hinv
  | award userId amount reason => exact ledgerInv_award hinv

theorem ledgerInv_runOps {s : Db} (ops : List Op) (hinv : ledgerInv s) :
    ledgerInv (runOps s ops) := by
  induction ops generalizing s with
  | nil => exact hinv
  | cons op rest ih => exact ih (ledgerInv_step op hinv)

theorem ledgerInv_emptyDb : ledgerInv emptyDb := by
  constructor
  · intro uid u hu
    simp [emptyDb, getEntry] at hu
  · intro uid hu
    simp [emptyDb, txnSum]

theorem nonNegInv_setEntry {s s' : Db} {k : String} {u' : UserRec}
    (hpos : 0 ≤ u'.points)
    (husers : s'.users = setEntry k u' s.users)
    (hinv : nonNegInv s) : nonNegInv s' := by
  intro uid v hv
  rw [husers] at hv
  by_cases hk : uid = k
  · subst hk
    rw [getEntry_setEntry_self] at hv
    cases hg : getEntry uid s.users with
    | none => rw [hg] at hv; exact absurd hv (by simp)
    | some u =>
        rw [hg] at hv
        have hv2 : (some u' : Option UserRec) = some v := hv
        cases hv2
        exact hpos
  · rw [getEntry_setEntry_ne hk] at hv
    exact hinv uid v hv

theorem nonNegInv_of_users {s s' : Db} (husers : s'.users = s.users)
    (hinv : nonNegInv s) : nonNegInv s' := by
  intro uid v hv
  rw [husers] at hv
  exact hinv uid v hv

theorem nonNegInv_step {s : Db} {op : Op} (hop : opOk op) (hinv : nonNegInv s) :
    nonNegInv (step s op) := by
  cases op with
  | newUser uid =>
      show nonNegInv (createUser uid s).1
      unfold createUser
      cases hu : getEntry uid s.users with
      | some u => exact hinv
      | none =>
          intro uid' v hv
          simp only [getEntry] at hv
          by_cases hk : uid' = uid
          · rw [if_pos hk] at hv
            cases hv
            norm_num
          · rw [if_neg hk] at hv
            exact hinv uid' v hv
  | redeem itemId buyerId =>
      show nonNegInv (requestRedemptionRun itemId buyerId s).1
      unfold requestRedemptionRun
      cases hr : requestRedemption itemId buyerId s with
      | error e => exact hinv
      | ok r =>
          obtain ⟨s1, oid⟩ := r
          obtain ⟨od, hok⟩ := requestRedemption_ok_inv hr
          obtain ⟨buyer, item, hb, hi, hp, hst, hoid, hs⟩ := createSwapOrder_ok_iff.mp hok
          have hres : nonNegInv (swapCommit od s buyer item) :=
            nonNegInv_setEntry (by simpa using sub_nonneg.mpr hp) rfl hinv
          rw [← hs] at hres
          exact hres
  | swap od =>
      show nonNegInv (createSwapOrderRun od s).1
      unfold createSwapOrderRun
      cases hr : createSwapOrder od s with
      | error e => exact hinv
      | ok r =>
          obtain ⟨s1, oid⟩ := r
          obtain ⟨buyer, item, hb, hi, hp, hst, hoid, hs⟩ := createSwapOrder_ok_iff.mp hr
          have hres : nonNegInv (swapCommit od s buyer item) :=
            nonNegInv_setEntry (by simpa using sub_nonneg.mpr hp) rfl hinv
          rw [← hs] at hres
          exact hres
  | moderate itemId approved notes =>
      show nonNegInv (match moderateItem itemId approved notes s with
                      | .ok s' => s'
                      | .error _ => s)
      cases hi : getEntry itemId s.items with
      | none => rw [moderateItem_missing hi]; exact hinv
      | some item =>
          cases approved with
          | false =>
              rw [moderateItem_rejected_eq hi]
              exact nonNegInv_of_users rfl hinv
          | true =>
              cases ho : getEntry item.ownerId s.users with
              | none =>
                  rw [moderateItem_approved_noOwner_eq hi ho]
                  exact nonNegInv_of_users rfl hinv
              | some owner =>
                  rw [moderateItem_approved_eq hi ho]
                  refine nonNegInv_setEntry ?_ rfl hinv
                  have h0 := hinv item.ownerId owner ho
                  simp only
                  linarith
  | award userId amount reason =>
      show nonNegInv (match awardPoints userId amount reason s with
                      | .ok s' => s'
                      | .error _ => s)
      cases hu : getEntry userId s.users with
      | none => rw [awardPoints_missing hu]; exact hinv
      | some user =>
          rw [awardPoints_eq hu]
          refine nonNegInv_setEntry ?_ rfl hinv
          have h0 := hinv userId user hu
          have h1 : (0 : Int) < amount := hop
          simp only
          linarith

theorem nonNegInv_runOps {s : Db} {ops : List Op}
    (hops : ∀ op ∈ ops, opOk op) (hinv : nonNegInv s) : nonNegInv (runOps s ops) := by
  induction ops generalizing s with
  | nil => exact hinv
  | cons op rest ih =>
      exact ih (fun o ho => hops o (List.mem_cons_of_mem op ho))
        (nonNegInv_step (hops op (List.mem_cons_self op rest)) hinv)

theorem nonNegInv_emptyDb : nonNegInv emptyDb := by
  intro uid u hu
  simp [emptyDb, getEntry] at hu

/-! Sample stores used by the witness theorems. -/

/-- A small store: three accounts and three listings (one approved and
priced, one approved without a point value, one pending). -/
def demoDb : Db :=
  { users := [("alice", { points := 200, isAdmin := false, isBanned := false }),
              ("bob", { points := 100, isAdmin := false, isBanned := false }),
              ("carol", { points := 10, isAdmin := false, isBanned := false })],
    items := [("hat", { ownerId := "carol", pointValue := some 150,
                        status := ItemStatus.approved, moderationNotes := none }),
              ("scarf", { ownerId := "carol", pointValue := none,
                          status := ItemStatus.approved, moderationNotes := none }),
              ("coat", { ownerId := "carol", pointValue := some 30,
                         status := ItemStatus.statusPending, moderationNotes := none })],
    swapOrders := [],
    pointsTransactions := [],
    nextId := 0 }

/-- A store holding one listing whose owner account does not exist. -/
def ghostDb : Db :=
  { users := [],
    items := [("lamp", { ownerId := "ghost", pointValue := some 20,
                         status := ItemStatus.statusPending, moderationNotes := none })],
    swapOrders := [],
    pointsTransactions := [],
    nextId := 0 }

/-! The claims. -/

/-- Claim C10: createUser called with an id with no existing account creates
it with balance exactly 100 and appends no Transaction (the state differs
only in the users list); called with an existing id it leaves the state
entirely unchanged; in both cases it returns the id. -/
theorem claim_C10 (s : Db) (uid : String) :
    (getEntry uid s.users = (none : Option UserRec) →
      createUser uid s =
        ({ s with users :=
            (uid, { points := 100, isAdmin := false, isBanned := false }) :: s.users }, uid)) ∧
    (∀ u, getEntry uid s.users = some u → createUser uid s = (s, uid)) := by
  constructor
  · intro h
    simp [createUser, h]
  · intro u h
    simp [createUser, h]

/-- Witness for C10 at a fresh id and at an existing id of the sample
store. -/
theorem claim_C10_witness :
    createUser "dave" demoDb =
      ({ demoDb with users :=
          ("dave", { points := 100, isAdmin := false, isBanned := false }) :: demoDb.users },
       "dave") ∧
    createUser "bob" demoDb = (demoDb, "bob") :=
  ⟨(claim_C10 demoDb "dave").1 rfl, (claim_C10 demoDb "bob").2 _ rfl⟩

/-- Claim C7: a redemption request on an existing listing with no point value
set, by an existing buyer, fails with NoPointValue (the caller-side check in
the item-detail handler) and leaves the state unchanged: no debit, no
SwapOrder, no status change. -/
theorem claim_C7 (s : Db) (itemId buyerId : String) (item : ItemRec) (buyer : UserRec)
    (hi : getEntry itemId s.items = some item)
    (hb : getEntry buyerId s.users = some buyer)
    (hpv : item.pointValue = none) :
    requestRedemptionRun itemId buyerId s = (s, none, some ApiErr.noPointValue) := by
  simp [requestRedemptionRun, requestRedemption_noPointValue hi hb hpv]

/-- Witness for C7: the sample listing without a point value. -/
theorem claim_C7_witness :
    requestRedemptionRun "scarf" "alice" demoDb =
      (demoDb, none, some ApiErr.noPointValue) :=
  claim_C7 demoDb "scarf" "alice" _ _ rfl rfl rfl

/-- Claim C2: a redemption (createSwapOrder) that fails any precondition
(buyer missing, listing missing, listing not approved, or balance below the
amount) returns an error and leaves the whole state unchanged; in
particular a buyer whose balance is below the amount gets the
InsufficientBalance error (thrown as "Insufficient points") with the state,
hence the balance and the listing status, exactly as before. -/
theorem claim_C2 :
    (∀ od (s : Db),
      (¬ ∃ buyer item,
          getEntry od.buyerId s.users = some buyer ∧
          getEntry od.itemId s.items = some item ∧
          od.pointsAmount.getD 0 ≤ buyer.points ∧
          item.status = ItemStatus.approved) →
      ∃ e, createSwapOrderRun od s = (s, none, some e)) ∧
    (∀ od (s : Db) buyer,
      getEntry od.buyerId s.users = some buyer →
      buyer.points < od.pointsAmount.getD 0 →
      createSwapOrderRun od s = (s, none, some ApiErr.insufficientPoints)) := by
  constructor
  · intro od s hpre
    cases hr : createSwapOrder od s with
    | ok r =>
        obtain ⟨s1, oid⟩ := r
        obtain ⟨buyer, item, hb, hi, hp, hst, _, _⟩ := createSwapOrder_ok_iff.mp hr
        exact absurd ⟨buyer, item, hb, hi, hp, hst⟩ hpre
    | error e => exact ⟨e, createSwapOrderRun_of_error hr⟩
  · intro od s buyer hb hlt
    exact createSwapOrderRun_of_error (createSwapOrder_insufficient hb hlt)

/-- Witness for C2, Scenario A: balance 100 redeeming a listing priced 150
fails with the insufficient-points error; the returned state is the input
store itself, in which the listing is still approved and the balance still
100. -/
theorem claim_C2_witness :
    createSwapOrderRun
      { itemId := "hat", buyerId := "bob", sellerId := some "carol",
        pointsAmount := some 150 } demoDb =
      (demoDb, none, some ApiErr.insufficientPoints) ∧
    getEntry "bob" demoDb.users =
      some { points := 100, isAdmin := false, isBanned := false } ∧
    getEntry "hat" demoDb.items =
      some { ownerId := "carol", pointValue := some 150,
             status := ItemStatus.approved, moderationNotes := none } :=
  ⟨claim_C2.2 _ demoDb _ rfl (by decide), rfl, rfl⟩

/-- Counterexample to C6 as stated: a buyer with balance 100 below the
amount 30... (here: carol with 10 points, listing "coat" still pending with
value 30): the listing is NOT approved, yet the reported error is the
insufficient-points one, not ItemUnavailable, because createSwapOrder checks
the buyer balance before the listing. -/
theorem claim_C6_counterexample :
    createSwapOrder
      { itemId := "coat", buyerId := "carol", sellerId := some "carol",
        pointsAmount := some 30 } demoDb = .error ApiErr.insufficientPoints ∧
    getEntry "coat" demoDb.items =
      some { ownerId := "carol", pointValue := some 30,
             status := ItemStatus.statusPending, moderationNotes := none } ∧
    ApiErr.insufficientPoints ≠ ApiErr.itemNotAvailable :=
  ⟨rfl, rfl, by decide⟩

/-- Claim C6 amended: when the listing is missing createSwapOrder fails with
the not-found error, and when it exists but is not approved it fails with
ItemUnavailable - but only provided the buyer exists and has sufficient
balance, because the balance check runs FIRST: when the balance
precondition also fails, the insufficient-points error is reported
instead. -/
theorem claim_C6 :
    (∀ od (s : Db) buyer,
      getEntry od.buyerId s.users = some buyer →
      od.pointsAmount.getD 0 ≤ buyer.points →
      (getEntry od.itemId s.items = (none : Option ItemRec) →
        createSwapOrder od s = .error ApiErr.itemNotFound) ∧
      (∀ item, getEntry od.itemId s.items = some item →
        item.status ≠ ItemStatus.approved →
        createSwapOrder od s = .error ApiErr.itemNotAvailable)) ∧
    (∀ od (s : Db) buyer,
      getEntry od.buyerId s.users = some buyer →
      buyer.points < od.pointsAmount.getD 0 →
      createSwapOrder od s = .error ApiErr.insufficientPoints) := by
  constructor
  · intro od s buyer hb hge
    exact ⟨fun hi => createSwapOrder_itemMissing hb hge hi,
           fun item hi hst => createSwapOrder_unavailable hb hge hi hst⟩
  · intro od s buyer hb hlt
    exact createSwapOrder_insufficient hb hlt

/-- Witness for the amended C6: a funded buyer redeeming the pending listing
observes ItemUnavailable. -/
theorem claim_C6_witness :
    createSwapOrder
      { itemId := "coat", buyerId := "alice", sellerId := some "carol",
        pointsAmount := some 30 } demoDb = .error ApiErr.itemNotAvailable :=
  (claim_C6.1
    { itemId := "coat", buyerId := "alice", sellerId := some "carol", pointsAmount := some 30 }
    demoDb { points := 200, isAdmin := false, isBanned := false } rfl (by decide)).2
    { ownerId := "carol", pointValue := some 30, status := ItemStatus.statusPending,
      moderationNotes := none } rfl (by decide)

/-- Claim C5: starting from any store whose balances are non-negative, any
sequence of core operations in which every awardPoints credit has a positive
amount keeps every balance non-negative; and a debit (createSwapOrder) whose
amount exceeds the buyer balance fails with the insufficient-points error
and leaves the state, hence the balance, unchanged. -/
theorem claim_C5 :
    (∀ (ops : List Op) (s : Db),
      (∀ op ∈ ops, opOk op) → nonNegInv s → nonNegInv (runOps s ops)) ∧
    (∀ od (s : Db) buyer,
      getEntry od.buyerId s.users = some buyer →
      buyer.points < od.pointsAmount.getD 0 →
      createSwapOrderRun od s = (s, none, some ApiErr.insufficientPoints)) :=
  ⟨fun _ _ hops hinv => nonNegInv_runOps hops hinv,
   fun _ _ _ hb hlt => createSwapOrderRun_of_error (createSwapOrder_insufficient hb hlt)⟩

/-- Witness for C5: a concrete positive-amount run from the empty store, and
a concrete over-large debit left unapplied. -/
theorem claim_C5_witness :
    nonNegInv (runOps emptyDb [Op.newUser "a", Op.award "a" 5 "bonus", Op.newUser "b"]) ∧
    createSwapOrderRun
      { itemId := "hat", buyerId := "carol", sellerId := some "carol",
        pointsAmount := some 150 } demoDb =
      (demoDb, none, some ApiErr.insufficientPoints) := by
  constructor
  · refine claim_C5.1 _ emptyDb ?_ nonNegInv_emptyDb
    intro op hop
    fin_cases hop <;> norm_num [opOk]
  · exact claim_C5.2 _ demoDb _ rfl (by decide)

/-- Claim C1, Scenario B: when the listing exists, is approved and has a
(positive) point value, the buyer exists and has balance at least that
value, the redemption request succeeds as one atomic unit: the buyer is
debited exactly the point value, a pending SwapOrder referencing listing,
buyer, seller (= listing owner) and the amount is appended, the listing
becomes in-transit, and one spent Transaction of minus the value is
appended for the buyer. -/
theorem claim_C1 (s : Db) (itemId buyerId : String) (item : ItemRec) (buyer : UserRec)
    (pv : Int)
    (hi : getEntry itemId s.items = some item)
    (hst : item.status = ItemStatus.approved)
    (hpv : item.pointValue = some pv)
    (hpvpos : 0 < pv)
    (hb : getEntry buyerId s.users = some buyer)
    (hbal : pv ≤ buyer.points) :
    ∃ s' oid,
      requestRedemption itemId buyerId s = .ok (s', oid) ∧
      getEntry buyerId s'.users = some { buyer with points := buyer.points - pv } ∧
      s'.swapOrders = s.swapOrders ++
        [{ id := oid, itemId := itemId, buyerId := buyerId, sellerId := some item.ownerId,
           pointsAmount := some pv, status := OrderStatus.orderPending }] ∧
      getEntry itemId s'.items = some { item with status := ItemStatus.inTransit } ∧
      s'.pointsTransactions = s.pointsTransactions ++
        [{ userId := buyerId, amount := -pv, type := TxnType.spent,
           reason := "Item purchase (escrowed)", relatedOrderId := some oid }] := by
  have hred := requestRedemption_eq_swap hi hb hpv (ne_of_gt hpvpos) hbal
  have hok :
      createSwapOrder
        { itemId := itemId, buyerId := buyerId,
          sellerId := some item.ownerId, pointsAmount := some pv } s =
      .ok (swapCommit
        { itemId := itemId, buyerId := buyerId,
          sellerId := some item.ownerId, pointsAmount := some pv } s buyer item, s.nextId) :=
    createSwapOrder_ok_iff.mpr ⟨buyer, item, hb, hi, by simpa using hbal, hst, rfl, rfl⟩
  refine ⟨_, s.nextId, by rw [hred]; exact hok, ?_, ?_, ?_, ?_⟩
  · show getEntry buyerId (setEntry buyerId _ s.users) = _
    rw [getEntry_setEntry_self, hb]
    simp
  · simp [swapCommit]
  · show getEntry itemId (setEntry itemId _ s.items) = _
    rw [getEntry_setEntry_self, hi]
    simp
  · simp [swapCommit]

/-- Witness for C1: alice (200 points) redeems the approved hat (150
points) in the sample store. -/
theorem claim_C1_witness :
    ∃ s' oid,
      requestRedemption "hat" "alice" demoDb = .ok (s', oid) ∧
      getEntry "alice" s'.users =
        some { points := 50, isAdmin := false, isBanned := false } ∧
      s'.swapOrders = demoDb.swapOrders ++
        [{ id := oid, itemId := "hat", buyerId := "alice", sellerId := some "carol",
           pointsAmount := some 150, status := OrderStatus.orderPending }] ∧
      getEntry "hat" s'.items =
        some { ownerId := "carol", pointValue := some 150,
               status := ItemStatus.inTransit, moderationNotes := none } ∧
      s'.pointsTransactions = demoDb.pointsTransactions ++
        [{ userId := "alice", amount := -150, type := TxnType.spent,
           reason := "Item purchase (escrowed)", relatedOrderId := some oid }] := by
  obtain ⟨s', oid, h1, h2, h3, h4, h5⟩ :=
    claim_C1 demoDb "hat" "alice"
      { ownerId := "carol", pointValue := some 150,
        status := ItemStatus.approved, moderationNotes := none }
      { points := 200, isAdmin := false, isBanned := false }
      150 rfl rfl rfl (by norm_num) rfl (by norm_num)
  exact ⟨s', oid, h1, by simpa using h2, h3, h4, h5⟩

/-- Claim C4: two redemption requests for the same listing can never both
commit; and when the listing is approved and both buyers are distinct,
existing and sufficiently funded, exactly one request succeeds and the
other fails with ItemUnavailable.  Concurrency is modelled by the store
serializing the two transactions (the guarantee the backing store gives):
the two orders of execution are covered by quantifying over the two
requests. -/
theorem claim_C4 :
    (∀ od₁ od₂ (s s₁ : Db) (oid₁ : Nat),
      createSwapOrder od₁ s = .ok (s₁, oid₁) →
      od₂.itemId = od₁.itemId →
      ∀ s₂ oid₂, createSwapOrder od₂ s₁ ≠ .ok (s₂, oid₂)) ∧
    (∀ (s : Db) od₁ od₂ (buyer₁ buyer₂ : UserRec) (item : ItemRec),
      od₂.itemId = od₁.itemId →
      getEntry od₁.itemId s.items = some item →
      item.status = ItemStatus.approved →
      getEntry od₁.buyerId s.users = some buyer₁ →
      od₁.pointsAmount.getD 0 ≤ buyer₁.points →
      getEntry od₂.buyerId s.users = some buyer₂ →
      od₂.pointsAmount.getD 0 ≤ buyer₂.points →
      od₂.buyerId ≠ od₁.buyerId →
      ∃ s₁ oid₁,
        createSwapOrder od₁ s = .ok (s₁, oid₁) ∧
        createSwapOrder od₂ s₁ = .error ApiErr.itemNotAvailable) := by
  constructor
  · intro od₁ od₂ s s₁ oid₁ h1 hsame s₂ oid₂ h2
    obtain ⟨b1, i1, hb1, hi1, hp1, hst1, _, hs1⟩ := createSwapOrder_ok_iff.mp h1
    obtain ⟨b2, i2, hb2, hi2, hp2, hst2, _, _⟩ := createSwapOrder_ok_iff.mp h2
    rw [hs1] at hi2
    simp only [swapCommit] at hi2
    rw [hsame, getEntry_setEntry_self, hi1] at hi2
    have hx : (some { i1 with status := ItemStatus.inTransit } : Option ItemRec) = some i2 :=
      hi2
    cases hx
    simp at hst2
  · intro s od₁ od₂ b1 b2 item hsame hi1 hst hb1 hp1 hb2 hp2 hbne
    have h1 : createSwapOrder od₁ s = .ok (swapCommit od₁ s b1 item, s.nextId) :=
      createSwapOrder_ok_iff.mpr ⟨b1, item, hb1, hi1, hp1, hst, rfl, rfl⟩
    refine ⟨_, _, h1, ?_⟩
    have hb2' : getEntry od₂.buyerId (swapCommit od₁ s b1 item).users = some b2 := by
      simp only [swapCommit]
      rw [getEntry_setEntry_ne hbne]
      exact hb2
    have hi2' : getEntry od₂.itemId (swapCommit od₁ s b1 item).items =
        some { item with status := ItemStatus.inTransit } := by
      simp only [swapCommit]
      rw [hsame, getEntry_setEntry_self, hi1]
      rfl
    exact createSwapOrder_unavailable hb2' hp2 hi2' (by simp)

/-- Witness for C4: alice and bob both try to redeem the approved hat; run
in this order, the first commits and the second observes
ItemUnavailable. -/
theorem claim_C4_witness :
    ∃ s₁ oid₁,
      createSwapOrder
        { itemId := "hat", buyerId := "alice", sellerId := some "carol",
          pointsAmount := some 150 } demoDb = .ok (s₁, oid₁) ∧
      createSwapOrder
        { itemId := "hat", buyerId := "bob", sellerId := some "carol",
          pointsAmount := some 100 } s₁ = .error ApiErr.itemNotAvailable := by
  exact claim_C4.2 demoDb
    { itemId := "hat", buyerId := "alice", sellerId := some "carol", pointsAmount := some 150 }
    { itemId := "hat", buyerId := "bob", sellerId := some "carol", pointsAmount := some 100 }
    { points := 200, isAdmin := false, isBanned := false }
    { points := 100, isAdmin := false, isBanned := false }
    { ownerId := "carol", pointValue := some 150,
      status := ItemStatus.approved, moderationNotes := none }
    rfl rfl rfl rfl (by decide) rfl (by decide) (by decide)

/-- Counterexample to C8 as stated: approving the listing whose owner account
does not exist succeeds, flips the status and stores the notes, but credits
nobody and appends NO transaction (the result has an empty
pointsTransactions list), contradicting the unconditional "appends exactly
one Transaction for the owner". -/
theorem claim_C8_counterexample :
    moderateItem "lamp" true (some "nice") ghostDb =
      .ok { users := [],
            items := [("lamp", { ownerId := "ghost", pointValue := some 20,
                                 status := ItemStatus.approved,
                                 moderationNotes := some "nice" })],
            swapOrders := [],
            pointsTransactions := [],
            nextId := 0 } := by
  rfl

/-- Claim C8 amended: for an existing listing whose OWNER ACCOUNT EXISTS,
moderate with approved = true atomically sets status approved, stores the
notes, credits the owner exactly 50 and appends exactly one +50 earned
Transaction with reason "Item listing approved"; when the owner account
does not exist the status and notes are still set but no credit and no
Transaction happen; moderate with approved = false sets status rejected and
the notes and changes nothing else. -/
theorem claim_C8 (s : Db) (itemId : String) (item : ItemRec) (notes : Option String)
    (hi : getEntry itemId s.items = some item) :
    (∀ owner, getEntry item.ownerId s.users = some owner →
      moderateItem itemId true notes s = .ok
        ({ s with
            users := setEntry item.ownerId
              { owner with points := owner.points + 50 } s.users,
            items := setEntry itemId
              ({ item with status := ItemStatus.approved,
                           moderationNotes := some (notes.getD "") }) s.items,
            pointsTransactions := s.pointsTransactions ++
              [{ userId := item.ownerId, amount := 50, type := TxnType.earned,
                 reason := "Item listing approved", relatedOrderId := none }] })) ∧
    (getEntry item.ownerId s.users = (none : Option UserRec) →
      moderateItem itemId true notes s = .ok
        ({ s with
            items := setEntry itemId
              ({ item with status := ItemStatus.approved,
                           moderationNotes := some (notes.getD "") }) s.items })) ∧
    moderateItem itemId false notes s = .ok
      ({ s with
          items := setEntry itemId
            ({ item with status := ItemStatus.rejected,
                         moderationNotes := some (notes.getD "") }) s.items }) :=
  ⟨fun _ ho => moderateItem_approved_eq hi ho,
   fun ho => moderateItem_approved_noOwner_eq hi ho,
   moderateItem_rejected_eq hi⟩

/-- Witness for the amended C8: approving the pending coat credits carol 50
(10 to 60) and appends the one +50 transaction. -/
theorem claim_C8_witness :
    moderateItem "coat" true (some "good") demoDb = .ok
      ({ demoDb with
          users := setEntry "carol"
            { points := 10 + 50, isAdmin := false, isBanned := false } demoDb.users,
          items := setEntry "coat"
            ({ ownerId := "carol", pointValue := some 30,
               status := ItemStatus.approved, moderationNotes := some "good" }) demoDb.items,
          pointsTransactions := demoDb.pointsTransactions ++
            [{ userId := "carol", amount := 50, type := TxnType.earned,
               reason := "Item listing approved", relatedOrderId := none }] }) :=
  (claim_C8 demoDb "coat"
    { ownerId := "carol", pointValue := some 30,
      status := ItemStatus.statusPending, moderationNotes := none }
    (some "good") rfl).1
    { points := 10, isAdmin := false, isBanned := false } rfl

/-- Claim C9: moderation is not idempotent in its point effects: approving
the same existing listing twice (owner account existing) awards the owner
50 twice, for +100 in total, and appends two +50 transactions. -/
theorem claim_C9 (s : Db) (itemId : String) (item : ItemRec) (owner : UserRec)
    (n₁ n₂ : Option String)
    (hi : getEntry itemId s.items = some item)
    (ho : getEntry item.ownerId s.users = some owner) :
    ∃ s₁ s₂,
      moderateItem itemId true n₁ s = .ok s₁ ∧
      moderateItem itemId true n₂ s₁ = .ok s₂ ∧
      getEntry item.ownerId s₂.users =
        some { owner with points := owner.points + 100 } ∧
      s₂.pointsTransactions = s.pointsTransactions ++
        [{ userId := item.ownerId, amount := 50, type := TxnType.earned,
           reason := "Item listing approved", relatedOrderId := none }] ++
        [{ userId := item.ownerId, amount := 50, type := TxnType.earned,
           reason := "Item listing approved", relatedOrderId := none }] := by
  have h1 := @moderateItem_approved_eq itemId n₁ s item owner hi ho
  have hi2 : getEntry itemId (setEntry itemId
      ({ item with status := ItemStatus.approved, moderationNotes := some (n₁.getD "") })
      s.items) =
      some ({ item with status := ItemStatus.approved, moderationNotes := some (n₁.getD "") }) := by
    simp [getEntry_setEntry_self, hi]
  have ho2 : getEntry item.ownerId (setEntry item.ownerId
      ({ owner with points := owner.points + 50 }) s.users) =
      some ({ owner with points := owner.points + 50 }) := by
    simp [getEntry_setEntry_self, ho]
  have h2 := @moderateItem_approved_eq itemId n₂
    { s with
        users := setEntry item.ownerId ({ owner with points := owner.points + 50 }) s.users,
        items := setEntry itemId
          ({ item with status := ItemStatus.approved, moderationNotes := some (n₁.getD "") })
          s.items,
        pointsTransactions := s.pointsTransactions ++
          [{ userId := item.ownerId, amount := 50, type := TxnType.earned,
             reason := "Item listing approved", relatedOrderId := none }] }
    _ _ hi2 ho2
  refine ⟨_, _, h1, h2, ?_, ?_⟩
  · have harith : owner.points + 50 + 50 = owner.points + 100 := by ring
    simp [getEntry_setEntry_self, ho, harith]
  · rfl

/-- Witness for C9: approving the pending coat twice takes carol from 10 to
110 points with two +50 transactions. -/
theorem claim_C9_witness :
    ∃ s₁ s₂,
      moderateItem "coat" true none demoDb = .ok s₁ ∧
      moderateItem "coat" true none s₁ = .ok s₂ ∧
      getEntry "carol" s₂.users =
        some { points := 10 + 100, isAdmin := false, isBanned := false } ∧
      s₂.pointsTransactions = demoDb.pointsTransactions ++
        [{ userId := "carol", amount := 50, type := TxnType.earned,
           reason := "Item listing approved", relatedOrderId := none }] ++
        [{ userId := "carol", amount := 50, type := TxnType.earned,
           reason := "Item listing approved", relatedOrderId := none }] :=
  claim_C9 demoDb "coat"
    { ownerId := "carol", pointValue := some 30,
      status := ItemStatus.statusPending, moderationNotes := none }
    { points := 10, isAdmin := false, isBanned := false }
    none none rfl rfl

/-- Counterexample to C3 as stated: directly after account creation (one
core operation), the account balance is the 100-point welcome bonus but the
transaction log for the account is empty, so the sum of its transaction
amounts is 0, not 100. -/
theorem claim_C3_counterexample :
    getEntry "u" (runOps emptyDb [Op.newUser "u"]).users =
      some { points := 100, isAdmin := false, isBanned := false } ∧
    txnSum "u" (runOps emptyDb [Op.newUser "u"]).pointsTransactions = 0 ∧
    (100 : Int) ≠ 0 :=
  ⟨rfl, rfl, by decide⟩

/-- Claim C3 amended: for every sequence of core operations run from the
empty store and every account existing afterwards, the stored balance
equals 100 (the welcome bonus, which createUser records without a
transaction) plus the sum of the amounts of the transactions recorded for
that account. -/
theorem claim_C3 (ops : List Op) (uid : String) (u : UserRec)
    (hu : getEntry uid (runOps emptyDb ops).users = some u) :
    u.points = 100 + txnSum uid (runOps emptyDb ops).pointsTransactions :=
  (ledgerInv_runOps ops ledgerInv_emptyDb).1 uid u hu

/-- Witness for the amended C3: after creating two accounts and awarding one
of them 5 points, that account holds 105 = 100 + 5. -/
theorem claim_C3_witness :
    ({ points := 105, isAdmin := false, isBanned := false } : UserRec).points =
      100 + txnSum "a"
        (runOps emptyDb
          [Op.newUser "a", Op.newUser "b", Op.award "a" 5 "bonus"]).pointsTransactions :=
  claim_C3 [Op.newUser "a", Op.newUser "b", Op.award "a" 5 "bonus"] "a"
    { points := 105, isAdmin := false, isBanned := false } (by rfl)

end Rewear
